import Mathlib

/-!
Verification of the request-translation core of a NetBox MCP server
(src/netbox_mcp_server/server.py): type-catalog resolution, filter
validation, query/pagination construction and the multi-type search
aggregator.  Python dictionaries are modelled as association lists with
Python's update-in-place-or-append assignment semantics; the backend REST
client is an explicit function parameter, and every embedded tool records
the backend calls it issues so that claims about which calls are made (or
not made) can be stated and proved.
-/

set_option maxRecDepth 4000

/-- Scalar or list values appearing in filter/parameter dictionaries
(Python values: str, int, None, list). -/
inductive Val : Type where
  | str : String → Val
  | int : Int → Val
  | pynone : Val
  | list : List Val → Val

/-- A Python dict with string keys, in insertion order. -/
abbrev Dict := List (String × Val)

/-- Dictionary lookup: value of the first (in a Python dict: only)
occurrence of the key. -/
def dLookup : Dict → String → Option Val
  | [], _ => none
  | (k', v) :: rest, k => if k' = k then some v else dLookup rest k

/-- Python dict assignment d[k] = v: update the existing entry in place
(keeping its position) or append a new entry at the end. -/
def dInsert : Dict → String → Val → Dict
  | [], k, v => [(k, v)]
  | (k', v') :: rest, k, v =>
    if k' = k then (k, v) :: rest else (k', v') :: dInsert rest k v

/-- Auxiliary scan for Python str.split on the two-character separator:
at each position, a leading occurrence of two underscores ends the current
segment and the scan restarts after it; otherwise one character is
consumed.  The accumulator holds the current segment reversed. -/
def splitAux : List Char → List Char → List (List Char)
  | [], acc => [acc.reverse]
  | '_' :: '_' :: rest, acc => acc.reverse :: splitAux rest []
  | c :: rest, acc => splitAux rest (c :: acc)

/-- Python filter_name.split on a double underscore: leftmost-first,
non-overlapping, never returns an empty list. -/
def splitDunder (s : String) : List String :=
  (splitAux s.data []).map (fun cs => String.mk cs)

/-- Python expression: the double-underscore separator occurs in the
string (equivalently, splitting yields more than one part). -/
def hasDunder (s : String) : Bool :=
  (splitDunder s).length != 1

/-- Python ",".join. -/
def joinComma : List String → String
  | [] => ""
  | [s] => s
  | s :: rest => s ++ "," ++ joinComma rest

/-- Python str.strip(): remove leading and trailing whitespace. -/
def stripWS (s : String) : String :=
  String.mk (((s.data.dropWhile Char.isWhitespace).reverse.dropWhile
    Char.isWhitespace).reverse)

/-- The special parameter keys skipped by validate_filters
(server.py line 157). -/
def RESERVED_KEYS : List String := ["limit", "offset", "fields", "q"]

/-- VALID_SUFFIXES of validate_filters (server.py lines 135-153). -/
def VALID_SUFFIXES : List String :=
  ["n", "ic", "nic", "isw", "nisw", "iew", "niew", "ie", "nie",
   "empty", "regex", "iregex", "lt", "lte", "gt", "gte", "in"]

/-- The per-key body of the validate_filters loop (server.py lines
155-174): reserved keys are skipped; keys without the separator are
skipped; a two-part split whose last part is a valid suffix is allowed;
any other key containing the separator raises ValueError (modelled as
false).  The final fallthrough (accept) mirrors the source's implicit
continue after the two guarded ifs. -/
def validateKey (k : String) : Bool :=
  if RESERVED_KEYS.contains k then true
  else if !(hasDunder k) then true
  else
    let parts := splitDunder k
    if parts.length == 2 && VALID_SUFFIXES.contains (parts.getLastD "") then true
    else if parts.length ≥ 2 then false
    else true

/-- validate_filters (server.py lines 117-174) over the dict's keys:
succeeds exactly when no key raises. -/
def validate_filters (keys : List String) : Bool :=
  keys.all validateKey
def NETBOX_OBJECT_TYPES : List (String × String × String) := [
  ("circuits.circuit", "Circuit", "circuits/circuits"),
  ("circuits.circuitgroup", "CircuitGroup", "circuits/circuit-groups"),
  ("circuits.circuitgroupassignment", "CircuitGroupAssignment", "circuits/circuit-group-assignments"),
  ("circuits.circuittermination", "CircuitTermination", "circuits/circuit-terminations"),
  ("circuits.circuittype", "CircuitType", "circuits/circuit-types"),
  ("circuits.provider", "Provider", "circuits/providers"),
  ("circuits.provideraccount", "ProviderAccount", "circuits/provider-accounts"),
  ("circuits.providernetwork", "ProviderNetwork", "circuits/provider-networks"),
  ("circuits.virtualcircuit", "VirtualCircuit", "circuits/virtual-circuits"),
  ("circuits.virtualcircuittermination", "VirtualCircuitTermination", "circuits/virtual-circuit-terminations"),
  ("circuits.virtualcircuittype", "VirtualCircuitType", "circuits/virtual-circuit-types"),
  ("core.datafile", "DataFile", "core/data-files"),
  ("core.datasource", "DataSource", "core/data-sources"),
  ("core.job", "Job", "core/jobs"),
  ("core.objectchange", "ObjectChange", "core/object-changes"),
  ("core.objecttype", "ObjectType", "extras/object-types"),
  ("dcim.cable", "Cable", "dcim/cables"),
  ("dcim.cabletermination", "CableTermination", "dcim/cable-terminations"),
  ("dcim.consoleport", "ConsolePort", "dcim/console-ports"),
  ("dcim.consoleporttemplate", "ConsolePortTemplate", "dcim/console-port-templates"),
  ("dcim.consoleserverport", "ConsoleServerPort", "dcim/console-server-ports"),
  ("dcim.consoleserverporttemplate", "ConsoleServerPortTemplate", "dcim/console-server-port-templates"),
  ("dcim.device", "Device", "dcim/devices"),
  ("dcim.devicebay", "DeviceBay", "dcim/device-bays"),
  ("dcim.devicebaytemplate", "DeviceBayTemplate", "dcim/device-bay-templates"),
  ("dcim.devicerole", "DeviceRole", "dcim/device-roles"),
  ("dcim.devicetype", "DeviceType", "dcim/device-types"),
  ("dcim.frontport", "FrontPort", "dcim/front-ports"),
  ("dcim.frontporttemplate", "FrontPortTemplate", "dcim/front-port-templates"),
  ("dcim.interface", "Interface", "dcim/interfaces"),
  ("dcim.interfacetemplate", "InterfaceTemplate", "dcim/interface-templates"),
  ("dcim.inventoryitem", "InventoryItem", "dcim/inventory-items"),
  ("dcim.inventoryitemrole", "InventoryItemRole", "dcim/inventory-item-roles"),
  ("dcim.inventoryitemtemplate", "InventoryItemTemplate", "dcim/inventory-item-templates"),
  ("dcim.location", "Location", "dcim/locations"),
  ("dcim.macaddress", "MACAddress", "dcim/mac-addresses"),
  ("dcim.manufacturer", "Manufacturer", "dcim/manufacturers"),
  ("dcim.module", "Module", "dcim/modules"),
  ("dcim.modulebay", "ModuleBay", "dcim/module-bays"),
  ("dcim.modulebaytemplate", "ModuleBayTemplate", "dcim/module-bay-templates"),
  ("dcim.moduletype", "ModuleType", "dcim/module-types"),
  ("dcim.moduletypeprofile", "ModuleTypeProfile", "dcim/module-type-profiles"),
  ("dcim.platform", "Platform", "dcim/platforms"),
  ("dcim.powerfeed", "PowerFeed", "dcim/power-feeds"),
  ("dcim.poweroutlet", "PowerOutlet", "dcim/power-outlets"),
  ("dcim.poweroutlettemplate", "PowerOutletTemplate", "dcim/power-outlet-templates"),
  ("dcim.powerpanel", "PowerPanel", "dcim/power-panels"),
  ("dcim.powerport", "PowerPort", "dcim/power-ports"),
  ("dcim.powerporttemplate", "PowerPortTemplate", "dcim/power-port-templates"),
  ("dcim.rack", "Rack", "dcim/racks"),
  ("dcim.rackreservation", "RackReservation", "dcim/rack-reservations"),
  ("dcim.rackrole", "RackRole", "dcim/rack-roles"),
  ("dcim.racktype", "RackType", "dcim/rack-types"),
  ("dcim.rearport", "RearPort", "dcim/rear-ports"),
  ("dcim.rearporttemplate", "RearPortTemplate", "dcim/rear-port-templates"),
  ("dcim.region", "Region", "dcim/regions"),
  ("dcim.site", "Site", "dcim/sites"),
  ("dcim.sitegroup", "SiteGroup", "dcim/site-groups"),
  ("dcim.virtualchassis", "VirtualChassis", "dcim/virtual-chassis"),
  ("dcim.virtualdevicecontext", "VirtualDeviceContext", "dcim/virtual-device-contexts"),
  ("extras.bookmark", "Bookmark", "extras/bookmarks"),
  ("extras.configcontext", "ConfigContext", "extras/config-contexts"),
  ("extras.configtemplate", "ConfigTemplate", "extras/config-templates"),
  ("extras.customfield", "CustomField", "extras/custom-fields"),
  ("extras.customfieldchoiceset", "CustomFieldChoiceSet", "extras/custom-field-choice-sets"),
  ("extras.customlink", "CustomLink", "extras/custom-links"),
  ("extras.eventrule", "EventRule", "extras/event-rules"),
  ("extras.exporttemplate", "ExportTemplate", "extras/export-templates"),
  ("extras.imageattachment", "ImageAttachment", "extras/image-attachments"),
  ("extras.journalentry", "JournalEntry", "extras/journal-entries"),
  ("extras.notification", "Notification", "extras/notifications"),
  ("extras.notificationgroup", "NotificationGroup", "extras/notification-groups"),
  ("extras.savedfilter", "SavedFilter", "extras/saved-filters"),
  ("extras.script", "Script", "extras/scripts"),
  ("extras.subscription", "Subscription", "extras/subscriptions"),
  ("extras.tableconfig", "TableConfig", "extras/table-configs"),
  ("extras.tag", "Tag", "extras/tags"),
  ("extras.taggeditem", "TaggedItem", "extras/tagged-objects"),
  ("extras.webhook", "Webhook", "extras/webhooks"),
  ("ipam.aggregate", "Aggregate", "ipam/aggregates"),
  ("ipam.asn", "ASN", "ipam/asns"),
  ("ipam.asnrange", "ASNRange", "ipam/asn-ranges"),
  ("ipam.fhrpgroup", "FHRPGroup", "ipam/fhrp-groups"),
  ("ipam.fhrpgroupassignment", "FHRPGroupAssignment", "ipam/fhrp-group-assignments"),
  ("ipam.ipaddress", "IPAddress", "ipam/ip-addresses"),
  ("ipam.iprange", "IPRange", "ipam/ip-ranges"),
  ("ipam.prefix", "Prefix", "ipam/prefixes"),
  ("ipam.rir", "RIR", "ipam/rirs"),
  ("ipam.role", "Role", "ipam/roles"),
  ("ipam.routetarget", "RouteTarget", "ipam/route-targets"),
  ("ipam.service", "Service", "ipam/services"),
  ("ipam.servicetemplate", "ServiceTemplate", "ipam/service-templates"),
  ("ipam.vlan", "VLAN", "ipam/vlans"),
  ("ipam.vlangroup", "VLANGroup", "ipam/vlan-groups"),
  ("ipam.vlantranslationpolicy", "VLANTranslationPolicy", "ipam/vlan-translation-policies"),
  ("ipam.vlantranslationrule", "VLANTranslationRule", "ipam/vlan-translation-rules"),
  ("ipam.vrf", "VRF", "ipam/vrfs"),
  ("tenancy.contact", "Contact", "tenancy/contacts"),
  ("tenancy.contactassignment", "ContactAssignment", "tenancy/contact-assignments"),
  ("tenancy.contactgroup", "ContactGroup", "tenancy/contact-groups"),
  ("tenancy.contactrole", "ContactRole", "tenancy/contact-roles"),
  ("tenancy.tenant", "Tenant", "tenancy/tenants"),
  ("tenancy.tenantgroup", "TenantGroup", "tenancy/tenant-groups"),
  ("users.group", "Group", "users/groups"),
  ("users.objectpermission", "ObjectPermission", "users/permissions"),
  ("users.token", "Token", "users/tokens"),
  ("users.user", "User", "users/users"),
  ("virtualization.cluster", "Cluster", "virtualization/clusters"),
  ("virtualization.clustergroup", "ClusterGroup", "virtualization/cluster-groups"),
  ("virtualization.clustertype", "ClusterType", "virtualization/cluster-types"),
  ("virtualization.virtualdisk", "VirtualDisk", "virtualization/virtual-disks"),
  ("virtualization.virtualmachine", "VirtualMachine", "virtualization/virtual-machines"),
  ("virtualization.vminterface", "VMInterface", "virtualization/interfaces"),
  ("vpn.ikepolicy", "IKEPolicy", "vpn/ike-policies"),
  ("vpn.ikeproposal", "IKEProposal", "vpn/ike-proposals"),
  ("vpn.ipsecpolicy", "IPSecPolicy", "vpn/ipsec-policies"),
  ("vpn.ipsecprofile", "IPSecProfile", "vpn/ipsec-profiles"),
  ("vpn.ipsecproposal", "IPSecProposal", "vpn/ipsec-proposals"),
  ("vpn.l2vpn", "L2VPN", "vpn/l2vpns"),
  ("vpn.l2vpntermination", "L2VPNTermination", "vpn/l2vpn-terminations"),
  ("vpn.tunnel", "Tunnel", "vpn/tunnels"),
  ("vpn.tunnelgroup", "TunnelGroup", "vpn/tunnel-groups"),
  ("vpn.tunneltermination", "TunnelTermination", "vpn/tunnel-terminations"),
  ("wireless.wirelesslan", "WirelessLAN", "wireless/wireless-lans"),
  ("wireless.wirelesslangroup", "WirelessLANGroup", "wireless/wireless-lan-groups"),
  ("wireless.wirelesslink", "WirelessLink", "wireless/wireless-links")
]

/-- Membership of an object type key in NETBOX_OBJECT_TYPES (the Python
expression object_type in NETBOX_OBJECT_TYPES). -/
def isKnownType (t : String) : Bool :=
  NETBOX_OBJECT_TYPES.any (fun e => e.1 == t)

/-- _endpoint_for_type (server.py lines 1927-1932); only evaluated after a
successful membership check, so the default for absent keys is never
reached by the embedded tools. -/
def endpointForType (t : String) : String :=
  (((NETBOX_OBJECT_TYPES.find? (fun e => e.1 == t)).map
    (fun e => e.2.2)).getD "")

/-- DEFAULT_SEARCH_TYPES (server.py lines 102-111). -/
def DEFAULT_SEARCH_TYPES : List String :=
  ["dcim.device", "dcim.site", "ipam.ipaddress", "dcim.interface",
   "dcim.rack", "ipam.vlan", "circuits.circuit",
   "virtualization.virtualmachine"]

/-- The ordering argument of netbox_get_objects: str | list[str] | None. -/
inductive OrderingArg : Type where
  | onone : OrderingArg
  | ostr : String → OrderingArg
  | olist : List String → OrderingArg

/-- The parameter-building block of netbox_get_objects (server.py lines
277-292): params = filters.copy(); limit and offset assigned over it;
fields joined when truthy; brief marker when true; ordering joined when
truthy and not blank after stripping.  Python truthiness: None, empty
list, empty string are falsy. -/
def buildParams (filters : Dict) (limit : Int) (offset : Int)
    (fields : Option (List String)) (brief : Bool)
    (ordering : OrderingArg) : Dict :=
  let params := filters
  let params := dInsert params "limit" (Val.int limit)
  let params := dInsert params "offset" (Val.int offset)
  let params :=
    match fields with
    | some fs =>
      if fs.isEmpty then params
      else dInsert params "fields" (Val.str (joinComma fs))
    | none => params
  let params := if brief then dInsert params "brief" (Val.str "1") else params
  match ordering with
  | OrderingArg.onone => params
  | OrderingArg.ostr s =>
    if s == "" then params
    else if stripWS s == "" then params
    else dInsert params "ordering" (Val.str s)
  | OrderingArg.olist l =>
    if l.isEmpty then params
    else if stripWS (joinComma l) == "" then params
    else dInsert params "ordering" (Val.str (joinComma l))

/-- The backend REST client consumed by the tools: netbox.get(endpoint,
params) either returns a parsed body (a dict) or raises. -/
abbrev Backend := String → Dict → Except Unit Dict

/-- The sequence of backend calls a tool issues, in order: (endpoint,
params) pairs. -/
abbrev Trace := List (String × Dict)

/-- How an embedded tool call can fail: the two synchronous validation
errors raised by the tool itself, or a propagated backend exception. -/
inductive CallErr : Type where
  | invalidType : CallErr
  | invalidFilter : CallErr
  | backend : CallErr

/-- netbox_get_objects (server.py lines 254-295): membership check on the
catalog, filter validation, parameter construction, then a single backend
call whose failure propagates.  The second component records the backend
calls issued. -/
def netbox_get_objects (nb : Backend) (object_type : String)
    (filters : Dict) (fields : Option (List String)) (brief : Bool)
    (limit : Int) (offset : Int) (ordering : OrderingArg) :
    Except CallErr Dict × Trace :=
  if !(isKnownType object_type) then (Except.error CallErr.invalidType, [])
  else if !(validate_filters (filters.map Prod.fst)) then
    (Except.error CallErr.invalidFilter, [])
  else
    let endpoint := endpointForType object_type
    let params := buildParams filters limit offset fields brief ordering
    match nb endpoint params with
    | Except.ok r => (Except.ok r, [(endpoint, params)])
    | Except.error _ => (Except.error CallErr.backend, [(endpoint, params)])

/-- netbox_get_changelogs (server.py lines 349-408): the filter mapping is
passed verbatim as the backend params of a single call on the fixed
endpoint; no validation is performed. -/
def netbox_get_changelogs (nb : Backend) (filters : Dict) :
    Except CallErr Dict × Trace :=
  match nb "core/object-changes" filters with
  | Except.ok r => (Except.ok r, [("core/object-changes", filters)])
  | Except.error _ => (Except.error CallErr.backend, [("core/object-changes", filters)])

/-- The per-type search params dict (server.py lines 490-494): the shared
query, limit, and the joined fields or Python None when fields is falsy.
The dict is identical for every candidate type. -/
def searchParams (query : String) (fields : Option (List String))
    (limit : Int) : Dict :=
  [("q", Val.str query), ("limit", Val.int limit),
   ("fields",
     match fields with
     | some fs => if fs.isEmpty then Val.pynone else Val.str (joinComma fs)
     | none => Val.pynone)]

/-- The initial results dict comprehension of netbox_search_objects
(server.py line 483): every candidate type key mapped to an empty list. -/
def initResults (ts : List String) : Dict :=
  ts.foldl (fun d t => dInsert d t (Val.list [])) []

/-- The aggregation loop of netbox_search_objects (server.py lines
486-501): per type, one backend call; on success the results entry is
replaced by the response's results array (default empty); any exception is
swallowed and the loop continues.  Each issued call is recorded. -/
def searchLoop (nb : Backend) (params : Dict) :
    List String → Dict → Trace → Dict × Trace
  | [], results, tr => (results, tr)
  | t :: rest, results, tr =>
    let ep := endpointForType t
    match nb ep params with
    | Except.ok resp =>
      searchLoop nb params rest
        (dInsert results t ((dLookup resp "results").getD (Val.list [])))
        (tr ++ [(ep, params)])
    | Except.error _ => searchLoop nb params rest results (tr ++ [(ep, params)])

/-- The value the aggregation loop leaves for a candidate type: the
response's results array on backend success, the empty list on backend
failure. -/
def perType (nb : Backend) (params : Dict) (t : String) : Val :=
  match nb (endpointForType t) params with
  | Except.ok resp => (dLookup resp "results").getD (Val.list [])
  | Except.error _ => Val.list []

/-- netbox_search_objects (server.py lines 459-503): default candidate
list when object_types is None; upfront membership validation of every
candidate (the raise-on-first-unknown loop, modelled as an all-check
guarding the rest); then the aggregation loop over an initial
all-empty results dict. -/
def netbox_search_objects (nb : Backend) (query : String)
    (object_types : Option (List String)) (fields : Option (List String))
    (limit : Int) : Except CallErr Dict × Trace :=
  let search_types := object_types.getD DEFAULT_SEARCH_TYPES
  if search_types.all isKnownType then
    let res := searchLoop nb (searchParams query fields limit) search_types
      (initResults search_types) []
    (Except.ok res.1, res.2)
  else (Except.error CallErr.invalidType, [])

/-- A heap of Python dict objects, for reasoning about in-place mutation:
references are indices, and assignment mutates one slot. -/
abbrev Heap := List Dict

/-- Dereference a dict object. -/
def hGet (h : Heap) (r : Nat) : Dict := h.getD r []

/-- Python dict.copy(): allocate a fresh dict holding the same entries and
return the new reference. -/
def hCopy (h : Heap) (r : Nat) : Heap × Nat := (h ++ [hGet h r], h.length)

/-- Python d[k] = v on the object behind reference r: in-place update of
that slot only. -/
def hSetKey (h : Heap) (r : Nat) (k : String) (v : Val) : Heap :=
  h.set r (dInsert (hGet h r) k v)

/-- The params-building block of netbox_get_objects (server.py lines
277-292) at the level of dict objects: params = filters.copy() allocates,
and every subsequent assignment mutates the copy, never the caller's
filters object. -/
def getObjectsParamsProg (h : Heap) (filtersRef : Nat)
    (limit offset : Int) (fields : Option (List String)) (brief : Bool)
    (ordering : OrderingArg) : Heap × Nat :=
  let c := hCopy h filtersRef
  let h1 := c.1
  let p := c.2
  let h2 := hSetKey h1 p "limit" (Val.int limit)
  let h3 := hSetKey h2 p "offset" (Val.int offset)
  let h4 :=
    match fields with
    | some fs =>
      if fs.isEmpty then h3
      else hSetKey h3 p "fields" (Val.str (joinComma fs))
    | none => h3
  let h5 := if brief then hSetKey h4 p "brief" (Val.str "1") else h4
  let h6 :=
    match ordering with
    | OrderingArg.onone => h5
    | OrderingArg.ostr s =>
      if s == "" then h5
      else if stripWS s == "" then h5
      else hSetKey h5 p "ordering" (Val.str s)
    | OrderingArg.olist l =>
      if l.isEmpty then h5
      else if stripWS (joinComma l) == "" then h5
      else hSetKey h5 p "ordering" (Val.str (joinComma l))
  (h6, p)

/-- The per-key characterisation of validate_filters, in the words of the
specification: a key passes exactly when it is reserved, or splitting
yields a single part (no separator occurrence), or it splits into exactly
two parts whose second part is a recognised lookup suffix. -/
def specKeyOk (k : String) : Prop :=
  k ∈ RESERVED_KEYS ∨ (splitDunder k).length = 1 ∨
  ∃ a b, splitDunder k = [a, b] ∧ b ∈ VALID_SUFFIXES

theorem dLookup_dInsert_self (d : Dict) (k : String) (v : Val) :
    dLookup (dInsert d k v) k = some v := by
  induction d with
  | nil => simp [dInsert, dLookup]
  | cons hd tl ih =>
    obtain ⟨a, b⟩ := hd
    by_cases h : a = k
    · simp [dInsert, dLookup, h]
    · simp [dInsert, dLookup, h, ih]

theorem dLookup_dInsert_ne (d : Dict) (k k' : String) (v : Val)
    (h : k' ≠ k) : dLookup (dInsert d k v) k' = dLookup d k' := by
  have hkk : ¬ k = k' := fun e => h e.symm
  induction d with
  | nil => simp [dInsert, dLookup, hkk]
  | cons hd tl ih =>
    obtain ⟨a, b⟩ := hd
    by_cases ha : a = k
    · subst ha
      simp [dInsert, dLookup, hkk]
    · by_cases ha' : a = k'
      · simp [dInsert, dLookup, ha, ha', h]
      · simp [dInsert, dLookup, ha, ha', ih]

theorem splitAux_ne_nil (l acc : List Char) : splitAux l acc ≠ [] := by
  induction l, acc using splitAux.induct <;> simp_all [splitAux]

theorem splitDunder_ne_nil (s : String) : splitDunder s ≠ [] := by
  simp [splitDunder, splitAux_ne_nil]


theorem validateKey_iff (k : String) : validateKey k = true ↔ specKeyOk k := by
  unfold validateKey specKeyOk hasDunder
  by_cases hres : k ∈ RESERVED_KEYS
  · simp [hres]
  · rcases h : splitDunder k with _ | ⟨a, _ | ⟨b, _ | ⟨c, rest⟩⟩⟩
    · exact absurd h (splitDunder_ne_nil k)
    · simp [h, hres]
    · simp [h, hres]
      constructor
      · intro hb
        exact ⟨a, b, ⟨rfl, rfl⟩, hb⟩
      · rintro ⟨a1, b1, ⟨rfl, rfl⟩, hmem⟩
        exact hmem
    · simp [h, hres]

/-- C2: for every filter mapping, validation succeeds if and only if every
key is reserved (limit, offset, fields, q — always accepted and skipped),
or contains no double-underscore separator, or splits on it into exactly
two parts whose second part is in the fixed lookup-suffix set; keys with
more than one separator or an unrecognised suffix fail validation. -/
theorem validate_filters_iff_spec (keys : List String) :
    validate_filters keys = true ↔ ∀ k ∈ keys, specKeyOk k := by
  simp [validate_filters, List.all_eq_true, validateKey_iff]

theorem validate_filters_iff_spec_witness :
    validate_filters ["name__ic", "vid__gte", "site_id", "limit"] = true := by
  apply (validate_filters_iff_spec _).mpr
  intro k hk
  simp only [List.mem_cons, List.not_mem_nil, or_false] at hk
  rcases hk with rfl | rfl | rfl | rfl
  · exact Or.inr (Or.inr ⟨"name", "ic", rfl, by decide⟩)
  · exact Or.inr (Or.inr ⟨"vid", "gte", rfl, by decide⟩)
  · exact Or.inr (Or.inl rfl)
  · exact Or.inl (by decide)

theorem dLookup_buildParams_of_ne (filters : Dict) (limit offset : Int)
    (fields : Option (List String)) (brief : Bool) (ordering : OrderingArg)
    (k : String) (h1 : k ≠ "fields") (h2 : k ≠ "brief")
    (h3 : k ≠ "ordering") :
    dLookup (buildParams filters limit offset fields brief ordering) k =
      dLookup (dInsert (dInsert filters "limit" (Val.int limit)) "offset"
        (Val.int offset)) k := by
  unfold buildParams
  rcases fields with _ | fs <;> rcases ordering with _ | s | l <;>
    cases brief <;> simp only [] <;> (repeat' split) <;>
    simp [dLookup_dInsert_ne, h1, h2, h3]

/-- C4: the final parameter set of the query builder maps limit and offset
to the call's own pagination arguments, overwriting identically-named keys
already present in the filters; in particular limit=5, offset=10 with
filters containing limit 999 yields final limit 5. -/
theorem query_builder_pagination_overrides :
    (∀ (filters : Dict) (limit offset : Int) (fields : Option (List String))
      (brief : Bool) (ordering : OrderingArg),
      dLookup (buildParams filters limit offset fields brief ordering)
        "limit" = some (Val.int limit) ∧
      dLookup (buildParams filters limit offset fields brief ordering)
        "offset" = some (Val.int offset)) ∧
    dLookup (buildParams [("limit", Val.int 999)] 5 10 none false
      OrderingArg.onone) "limit" = some (Val.int 5) := by
  constructor
  · intro filters limit offset fields brief ordering
    constructor
    · rw [dLookup_buildParams_of_ne _ _ _ _ _ _ _ (by decide) (by decide)
        (by decide)]
      rw [dLookup_dInsert_ne _ _ _ _ (by decide)]
      exact dLookup_dInsert_self _ _ _
    · rw [dLookup_buildParams_of_ne _ _ _ _ _ _ _ (by decide) (by decide)
        (by decide)]
      exact dLookup_dInsert_self _ _ _
  · rfl

/-- C7 counterexample: an ordering argument of None does not guarantee the
absence of an ordering request parameter — a caller-supplied "ordering"
key in the filter mapping passes validate_filters (no separator) and
survives into the final parameters, and the full get_objects call sends it
to the backend. -/
theorem ordering_none_param_present_cex :
    validate_filters ["ordering"] = true ∧
    dLookup (buildParams [("ordering", Val.str "x")] 5 0 none false
      OrderingArg.onone) "ordering" = some (Val.str "x") ∧
    (netbox_get_objects (fun _ _ => Except.ok []) "dcim.device"
        [("ordering", Val.str "x")] none false 5 0 OrderingArg.onone).2 =
      [("dcim/devices",
        [("ordering", Val.str "x"), ("limit", Val.int 5),
         ("offset", Val.int 0)])] :=
  ⟨by decide, rfl, rfl⟩

theorem ordering_prefix_lemma (filters : Dict) (limit offset : Int)
    (fields : Option (List String)) (brief : Bool)
    (hf : dLookup filters "ordering" = none) :
    dLookup (buildParams filters limit offset fields brief
      OrderingArg.onone) "ordering" = none := by
  unfold buildParams
  rcases fields with _ | fs <;> cases brief <;> simp only [] <;>
    (repeat' split) <;> simp [dLookup_dInsert_ne, hf]

/-- C7 (amended): a comma-join of the ordering sequence that is not blank
is sent as the single ordering parameter; an ordering argument of None, an
empty sequence, or a blank string adds no ordering parameter — and,
provided the filter mapping itself carries no "ordering" key, the final
parameters then contain no ordering parameter at all. -/
theorem ordering_serialization_amended (filters : Dict) (limit offset : Int)
    (fields : Option (List String)) (brief : Bool)
    (hf : dLookup filters "ordering" = none) :
    (∀ l : List String, stripWS (joinComma l) ≠ "" →
      dLookup (buildParams filters limit offset fields brief
        (OrderingArg.olist l)) "ordering" = some (Val.str (joinComma l))) ∧
    dLookup (buildParams filters limit offset fields brief
      OrderingArg.onone) "ordering" = none ∧
    dLookup (buildParams filters limit offset fields brief
      (OrderingArg.olist [])) "ordering" = none ∧
    (∀ s : String, stripWS s = "" →
      dLookup (buildParams filters limit offset fields brief
        (OrderingArg.ostr s)) "ordering" = none) := by
  have base := ordering_prefix_lemma filters limit offset fields brief hf
  refine ⟨?_, base, ?_, ?_⟩
  · intro l hl
    have hne : ¬ l.isEmpty := by
      cases l with
      | nil => exact absurd rfl hl
      | cons a as => simp
    unfold buildParams
    unfold buildParams at base
    simp only [hne, if_false, Bool.false_eq_true]
    rw [if_neg (by simpa using hl)]
    exact dLookup_dInsert_self _ _ _
  · have heq : buildParams filters limit offset fields brief
        (OrderingArg.olist []) =
        buildParams filters limit offset fields brief OrderingArg.onone := by
      unfold buildParams
      simp
    rw [heq]
    exact base
  · intro s hs
    have heq : buildParams filters limit offset fields brief
        (OrderingArg.ostr s) =
        buildParams filters limit offset fields brief OrderingArg.onone := by
      unfold buildParams
      by_cases hs0 : s = "" <;> simp [hs0, hs]
    rw [heq]
    exact base

theorem ordering_serialization_amended_witness :
    dLookup (buildParams [] 5 0 none false
      (OrderingArg.olist ["facility", "-name"])) "ordering" =
        some (Val.str "facility,-name") ∧
    dLookup (buildParams [] 5 0 none false (OrderingArg.olist []))
      "ordering" = none :=
  ⟨(ordering_serialization_amended [] 5 0 none false rfl).1
      ["facility", "-name"] (by decide),
    (ordering_serialization_amended [] 5 0 none false rfl).2.2.1⟩

/-- C8 counterexample: with fields=None and brief=False, the final
parameters are not guaranteed to omit the fields and brief parameters —
caller-supplied "fields" (reserved) and "brief" (separator-free) filter
keys pass validate_filters and survive into the final parameters. -/
theorem fields_brief_param_present_cex :
    validate_filters ["fields", "brief"] = true ∧
    dLookup (buildParams [("fields", Val.str "id"), ("brief", Val.str "1")]
      5 0 none false OrderingArg.onone) "fields" = some (Val.str "id") ∧
    dLookup (buildParams [("fields", Val.str "id"), ("brief", Val.str "1")]
      5 0 none false OrderingArg.onone) "brief" = some (Val.str "1") :=
  ⟨by decide, rfl, rfl⟩

theorem fields_absent_lemma (filters : Dict) (limit offset : Int)
    (brief : Bool) (ordering : OrderingArg)
    (hf : dLookup filters "fields" = none) :
    dLookup (buildParams filters limit offset none brief ordering)
      "fields" = none := by
  unfold buildParams
  rcases ordering with _ | s | l <;> cases brief <;> simp only [] <;>
    (repeat' split) <;> simp [dLookup_dInsert_ne, hf]

theorem brief_absent_lemma (filters : Dict) (limit offset : Int)
    (fields : Option (List String)) (ordering : OrderingArg)
    (hb : dLookup filters "brief" = none) :
    dLookup (buildParams filters limit offset fields false ordering)
      "brief" = none := by
  unfold buildParams
  rcases fields with _ | fs <;> rcases ordering with _ | s | l <;>
    simp only [] <;> (repeat' split) <;>
    simp_all [dLookup_dInsert_ne, hb]

/-- C8 (amended): a non-empty fields sequence is always sent comma-joined
as the single fields parameter, and brief=true always adds the marker
parameter brief="1"; a None or empty fields sequence (resp. brief=false)
adds no such parameter — and, provided the filter mapping itself carries
no "fields" (resp. "brief") key, the final parameters then contain none at
all. -/
theorem fields_brief_serialization_amended (filters : Dict)
    (limit offset : Int) (ordering : OrderingArg)
    (hfld : dLookup filters "fields" = none)
    (hbr : dLookup filters "brief" = none) :
    (∀ (fs : List String) (brief : Bool), fs ≠ [] →
      dLookup (buildParams filters limit offset (some fs) brief ordering)
        "fields" = some (Val.str (joinComma fs))) ∧
    (∀ brief : Bool,
      dLookup (buildParams filters limit offset none brief ordering)
        "fields" = none) ∧
    (∀ brief : Bool,
      dLookup (buildParams filters limit offset (some []) brief ordering)
        "fields" = none) ∧
    (∀ fields : Option (List String),
      dLookup (buildParams filters limit offset fields true ordering)
        "brief" = some (Val.str "1")) ∧
    (∀ fields : Option (List String),
      dLookup (buildParams filters limit offset fields false ordering)
        "brief" = none) := by
  refine ⟨?_, fun brief => fields_absent_lemma _ _ _ _ _ hfld, ?_, ?_,
    fun fields => brief_absent_lemma _ _ _ _ _ hbr⟩
  · intro fs brief hfs
    have hne : ¬ fs.isEmpty := by
      cases fs with
      | nil => exact absurd rfl hfs
      | cons a as => simp
    unfold buildParams
    rcases ordering with _ | s | l <;> cases brief <;>
      simp only [hne, if_false, Bool.false_eq_true] <;> (repeat' split) <;>
      simp [dLookup_dInsert_ne, dLookup_dInsert_self]
  · intro brief
    have heq : buildParams filters limit offset (some []) brief ordering =
        buildParams filters limit offset none brief ordering := by
      unfold buildParams
      simp
    rw [heq]
    exact fields_absent_lemma _ _ _ _ _ hfld
  · intro fields
    unfold buildParams
    rcases fields with _ | fs <;> rcases ordering with _ | s | l <;>
      simp only [] <;> (repeat' split) <;>
      simp_all [dLookup_dInsert_ne, dLookup_dInsert_self]

theorem fields_brief_serialization_amended_witness :
    dLookup (buildParams [] 5 0 (some ["id", "name"]) false
      OrderingArg.onone) "fields" = some (Val.str "id,name") ∧
    dLookup (buildParams [] 5 0 none false OrderingArg.onone)
      "fields" = none :=
  ⟨by
    have h := (fields_brief_serialization_amended [] 5 0 OrderingArg.onone
      rfl rfl).1 ["id", "name"] false (by decide)
    simpa using h,
   (fields_brief_serialization_amended [] 5 0 OrderingArg.onone
      rfl rfl).2.1 false⟩

theorem buildParams_limit (filters : Dict) (limit offset : Int)
    (fields : Option (List String)) (brief : Bool) (ordering : OrderingArg) :
    dLookup (buildParams filters limit offset fields brief ordering)
      "limit" = some (Val.int limit) := by
  rw [dLookup_buildParams_of_ne _ _ _ _ _ _ _ (by decide) (by decide)
    (by decide)]
  rw [dLookup_dInsert_ne _ _ _ _ (by decide)]
  exact dLookup_dInsert_self _ _ _

theorem buildParams_offset (filters : Dict) (limit offset : Int)
    (fields : Option (List String)) (brief : Bool) (ordering : OrderingArg) :
    dLookup (buildParams filters limit offset fields brief ordering)
      "offset" = some (Val.int offset) := by
  rw [dLookup_buildParams_of_ne _ _ _ _ _ _ _ (by decide) (by decide)
    (by decide)]
  exact dLookup_dInsert_self _ _ _

/-- C3 counterexample: netbox_get_changelogs does not validate its filter
mapping — a key that validate_filters rejects (and that smuggles a caller
limit) is forwarded verbatim to the backend in a real call, contradicting
the claim that both read operations validate filter keys before any
backend call and keep limit/offset backend-bound. -/
theorem changelogs_no_validation_cex :
    validate_filters ["device__site_id"] = false ∧
    netbox_get_changelogs (fun _ _ => Except.ok [])
        [("device__site_id", Val.int 1), ("limit", Val.int 999)] =
      (Except.ok [],
       [("core/object-changes",
         [("device__site_id", Val.int 1), ("limit", Val.int 999)])]) :=
  ⟨by decide, rfl⟩

/-- C3 (amended): get_objects validates all filter keys before any backend
call and binds the backend limit/offset parameters from its own pagination
arguments (its sole backend call, when issued, carries the built
parameters, validation having succeeded); get_changelogs, by contrast,
performs no filter validation and forwards the caller's filter mapping
verbatim as the parameters of its single backend call. -/
theorem read_paths_validation_amended (nb : Backend) (ot : String)
    (filters : Dict) (fields : Option (List String)) (brief : Bool)
    (limit offset : Int) (ordering : OrderingArg) (filters2 : Dict) :
    ((netbox_get_objects nb ot filters fields brief limit offset
        ordering).2 = [] ∨
      ((netbox_get_objects nb ot filters fields brief limit offset
          ordering).2 =
        [(endpointForType ot,
          buildParams filters limit offset fields brief ordering)] ∧
       validate_filters (filters.map Prod.fst) = true ∧
       dLookup (buildParams filters limit offset fields brief ordering)
         "limit" = some (Val.int limit) ∧
       dLookup (buildParams filters limit offset fields brief ordering)
         "offset" = some (Val.int offset))) ∧
    (netbox_get_changelogs nb filters2).2 =
      [("core/object-changes", filters2)] := by
  constructor
  · by_cases h1 : isKnownType ot = true
    · by_cases h2 : validate_filters (filters.map Prod.fst) = true
      · right
        refine ⟨?_, h2, buildParams_limit _ _ _ _ _ _,
          buildParams_offset _ _ _ _ _ _⟩
        unfold netbox_get_objects
        simp only [h1, h2, Bool.not_true, Bool.false_eq_true, if_false]
        cases nb (endpointForType ot)
          (buildParams filters limit offset fields brief ordering) <;> rfl
      · left
        rw [Bool.not_eq_true] at h2
        simp [netbox_get_objects, h1, h2]
    · left
      rw [Bool.not_eq_true] at h1
      simp [netbox_get_objects, h1]
  · unfold netbox_get_changelogs
    cases nb "core/object-changes" filters2 <;> rfl

/-- C6: when the type key is unknown or some filter key fails validation,
get_objects returns the corresponding structured error having issued zero
backend calls; success therefore requires every filter key to pass. -/
theorem get_objects_validation_preempts_backend (nb : Backend)
    (ot : String) (filters : Dict) (fields : Option (List String))
    (brief : Bool) (limit offset : Int) (ordering : OrderingArg)
    (h : isKnownType ot = false ∨
      validate_filters (filters.map Prod.fst) = false) :
    (netbox_get_objects nb ot filters fields brief limit offset
      ordering).2 = [] ∧
    (isKnownType ot = false →
      (netbox_get_objects nb ot filters fields brief limit offset
        ordering).1 = Except.error CallErr.invalidType) ∧
    (isKnownType ot = true →
      (netbox_get_objects nb ot filters fields brief limit offset
        ordering).1 = Except.error CallErr.invalidFilter) := by
  rcases h with h | h
  · refine ⟨by simp [netbox_get_objects, h], fun _ => ?_, fun ht => ?_⟩
    · simp [netbox_get_objects, h]
    · rw [ht] at h
      exact absurd h (by decide)
  · by_cases h1 : isKnownType ot = true
    · exact ⟨by simp [netbox_get_objects, h1, h],
        fun hf => absurd (h1.symm.trans hf) (by decide),
        fun _ => by simp [netbox_get_objects, h1, h]⟩
    · rw [Bool.not_eq_true] at h1
      exact ⟨by simp [netbox_get_objects, h1],
        fun _ => by simp [netbox_get_objects, h1],
        fun ht => absurd (h1.symm.trans ht) (by decide)⟩

theorem get_objects_validation_preempts_backend_witness :
    (netbox_get_objects (fun _ _ => Except.ok []) "dcim.device"
      [("device__site_id", Val.int 1)] none false 5 0
      OrderingArg.onone).2 = [] ∧
    (isKnownType "dcim.device" = false →
      (netbox_get_objects (fun _ _ => Except.ok []) "dcim.device"
        [("device__site_id", Val.int 1)] none false 5 0
        OrderingArg.onone).1 = Except.error CallErr.invalidType) ∧
    (isKnownType "dcim.device" = true →
      (netbox_get_objects (fun _ _ => Except.ok []) "dcim.device"
        [("device__site_id", Val.int 1)] none false 5 0
        OrderingArg.onone).1 = Except.error CallErr.invalidFilter) :=
  get_objects_validation_preempts_backend _ _ _ _ _ _ _ _
    (Or.inr (by decide))

/-- C5: if any candidate type key — caller-supplied or from the default
list — is absent from the catalog, the whole search call fails with the
unknown-type error and the backend-call trace is empty. -/
theorem search_unknown_type_zero_calls (nb : Backend) (query : String)
    (otypes : Option (List String)) (fields : Option (List String))
    (limit : Int)
    (h : ∃ t ∈ otypes.getD DEFAULT_SEARCH_TYPES, isKnownType t = false) :
    netbox_search_objects nb query otypes fields limit =
      (Except.error CallErr.invalidType, []) := by
  have hall : (otypes.getD DEFAULT_SEARCH_TYPES).all isKnownType = false := by
    rcases h with ⟨t, ht, hfalse⟩
    rcases hb : (otypes.getD DEFAULT_SEARCH_TYPES).all isKnownType with _ | _
    · rfl
    · rw [List.all_eq_true] at hb
      exact absurd (hb t ht) (by simp [hfalse])
  simp [netbox_search_objects, hall]

theorem search_unknown_type_zero_calls_witness :
    netbox_search_objects (fun _ _ => Except.ok []) "x"
      (some ["not.a.type"]) none 5 =
      (Except.error CallErr.invalidType, []) :=
  search_unknown_type_zero_calls _ _ _ _ _
    ⟨"not.a.type", by decide, by decide⟩

theorem searchLoop_frame (nb : Backend) (params : Dict) :
    ∀ (ts : List String) (results : Dict) (tr : Trace) (u : String),
      u ∉ ts →
      dLookup (searchLoop nb params ts results tr).1 u =
        dLookup results u := by
  intro ts
  induction ts with
  | nil => intro results tr u _; rfl
  | cons t rest ih =>
    intro results tr u hu
    have hne : u ≠ t := fun e => hu (e ▸ List.mem_cons_self t rest)
    have hrest : u ∉ rest := fun e => hu (List.mem_cons_of_mem t e)
    cases hnb : nb (endpointForType t) params with
    | ok resp =>
      simp only [searchLoop, hnb]
      rw [ih _ _ _ hrest]
      exact dLookup_dInsert_ne _ _ _ _ hne
    | error e =>
      simp only [searchLoop, hnb]
      exact ih _ _ _ hrest

theorem searchLoop_spec (nb : Backend) (params : Dict) :
    ∀ (ts : List String) (results : Dict) (tr : Trace),
      (∀ t ∈ ts, dLookup results t = some (Val.list []) ∨
        dLookup results t = some (perType nb params t)) →
      ∀ t ∈ ts,
        dLookup (searchLoop nb params ts results tr).1 t =
          some (perType nb params t) := by
  intro ts
  induction ts with
  | nil => intro results tr _ t ht; exact absurd ht (List.not_mem_nil t)
  | cons t0 rest ih =>
    intro results tr hinv t ht
    cases hnb : nb (endpointForType t0) params with
    | ok resp =>
      simp only [searchLoop, hnb]
      have hval : (dLookup resp "results").getD (Val.list []) =
          perType nb params t0 := by
        unfold perType
        rw [hnb]
      have hinv2 : ∀ u ∈ rest,
          dLookup (dInsert results t0
            ((dLookup resp "results").getD (Val.list []))) u =
            some (Val.list []) ∨
          dLookup (dInsert results t0
            ((dLookup resp "results").getD (Val.list []))) u =
            some (perType nb params u) := by
        intro u hu
        by_cases he : u = t0
        · subst he
          right
          rw [dLookup_dInsert_self, hval]
        · rw [dLookup_dInsert_ne _ _ _ _ he]
          exact hinv u (List.mem_cons_of_mem t0 hu)
      rcases List.mem_cons.mp ht with rfl | hmem
      · by_cases hrest : t ∈ rest
        · exact ih _ _ hinv2 t hrest
        · rw [searchLoop_frame nb params rest _ _ t hrest]
          rw [dLookup_dInsert_self, hval]
      · exact ih _ _ hinv2 t hmem
    | error e =>
      simp only [searchLoop, hnb]
      have hempty : perType nb params t0 = Val.list [] := by
        unfold perType
        rw [hnb]
      have hinv2 : ∀ u ∈ rest, dLookup results u = some (Val.list []) ∨
          dLookup results u = some (perType nb params u) :=
        fun u hu => hinv u (List.mem_cons_of_mem t0 hu)
      rcases List.mem_cons.mp ht with rfl | hmem
      · by_cases hrest : t ∈ rest
        · exact ih _ _ hinv2 t hrest
        · rw [searchLoop_frame nb params rest _ _ t hrest]
          rcases hinv t (List.mem_cons_self t rest) with hc | hc
          · rw [hc, hempty]
          · exact hc
      · exact ih _ _ hinv2 t hmem

theorem dLookup_initResults_aux (v : Val) :
    ∀ (ts : List String) (acc : Dict) (u : String),
      dLookup (ts.foldl (fun d t => dInsert d t v) acc) u =
        if u ∈ ts then some v else dLookup acc u := by
  intro ts
  induction ts with
  | nil => intro acc u; simp
  | cons t rest ih =>
    intro acc u
    rw [List.foldl_cons, ih]
    by_cases hmem : u ∈ rest
    · simp [hmem, List.mem_cons]
    · by_cases he : u = t
      · subst he
        simp [hmem, dLookup_dInsert_self]
      · simp [hmem, he, dLookup_dInsert_ne _ _ _ _ he]

theorem dLookup_initResults (ts : List String) (u : String) (hu : u ∈ ts) :
    dLookup (initResults ts) u = some (Val.list []) := by
  unfold initResults
  rw [dLookup_initResults_aux]
  simp [hu]

/-- C1: when every candidate type resolves in the catalog, the search call
returns a mapping that contains every candidate type key; a type whose
backend call raises contributes an empty sequence while aggregation
continues, and the aggregate call itself never fails because of a backend
error. -/
theorem search_aggregation_resilient (nb : Backend) (query : String)
    (otypes : Option (List String)) (fields : Option (List String))
    (limit : Int)
    (h : ∀ t ∈ otypes.getD DEFAULT_SEARCH_TYPES, isKnownType t = true) :
    ∃ r tr, netbox_search_objects nb query otypes fields limit =
        (Except.ok r, tr) ∧
      ∀ t ∈ otypes.getD DEFAULT_SEARCH_TYPES,
        dLookup r t =
          some (perType nb (searchParams query fields limit) t) ∧
        (∀ e, nb (endpointForType t) (searchParams query fields limit) =
            Except.error e →
          dLookup r t = some (Val.list [])) := by
  have hall : (otypes.getD DEFAULT_SEARCH_TYPES).all isKnownType = true :=
    List.all_eq_true.mpr h
  refine ⟨(searchLoop nb (searchParams query fields limit)
      (otypes.getD DEFAULT_SEARCH_TYPES)
      (initResults (otypes.getD DEFAULT_SEARCH_TYPES)) []).1,
    (searchLoop nb (searchParams query fields limit)
      (otypes.getD DEFAULT_SEARCH_TYPES)
      (initResults (otypes.getD DEFAULT_SEARCH_TYPES)) []).2, ?_, ?_⟩
  · unfold netbox_search_objects
    simp [hall]
  · intro t ht
    have hmain := searchLoop_spec nb (searchParams query fields limit)
      (otypes.getD DEFAULT_SEARCH_TYPES)
      (initResults (otypes.getD DEFAULT_SEARCH_TYPES)) []
      (fun u hu => Or.inl (dLookup_initResults _ u hu)) t ht
    refine ⟨hmain, fun e he => ?_⟩
    rw [hmain]
    unfold perType
    rw [he]

theorem search_aggregation_resilient_witness :
    ∃ r tr, netbox_search_objects
        (fun ep _ => if ep == "dcim/sites" then
          Except.ok [("results", Val.list [Val.str "site1"])]
          else Except.error ())
        "switch" (some ["dcim.site", "ipam.ipaddress"]) none 5 =
        (Except.ok r, tr) ∧
      ∀ t ∈ (some ["dcim.site", "ipam.ipaddress"] :
          Option (List String)).getD DEFAULT_SEARCH_TYPES,
        dLookup r t = some (perType
          (fun ep _ => if ep == "dcim/sites" then
            Except.ok [("results", Val.list [Val.str "site1"])]
            else Except.error ())
          (searchParams "switch" none 5) t) ∧
        (∀ e, (fun ep _ => if ep == "dcim/sites" then
            Except.ok [("results", Val.list [Val.str "site1"])]
            else Except.error ()) (endpointForType t)
            (searchParams "switch" none 5) = Except.error e →
          dLookup r t = some (Val.list [])) :=
  search_aggregation_resilient _ "switch"
    (some ["dcim.site", "ipam.ipaddress"]) none 5 (by decide)


theorem hGet_append_lt (h : Heap) (d : Dict) (r : Nat)
    (hr : r < h.length) : hGet (h ++ [d]) r = hGet h r := by
  induction h generalizing r with
  | nil => exact absurd hr (Nat.not_lt_zero r)
  | cons a t ih =>
    cases r with
    | zero => rfl
    | succ n =>
      simp only [List.cons_append, hGet, List.getD_cons_succ]
      exact ih n (Nat.lt_of_succ_lt_succ hr)

theorem hGet_append_len (h : Heap) (d : Dict) :
    hGet (h ++ [d]) h.length = d := by
  induction h with
  | nil => rfl
  | cons a t ih =>
    simp only [List.cons_append, hGet, List.length_cons,
      List.getD_cons_succ]
    exact ih

theorem set_append_len (h : Heap) (d d' : Dict) :
    (h ++ [d]).set h.length d' = h ++ [d'] := by
  induction h with
  | nil => rfl
  | cons a t ih =>
    simp only [List.cons_append, List.length_cons, List.set_cons_succ]
    rw [ih]

theorem hSetKey_append_last (h : Heap) (d : Dict) (k : String) (v : Val) :
    hSetKey (h ++ [d]) h.length k v = h ++ [dInsert d k v] := by
  unfold hSetKey
  rw [hGet_append_len, set_append_len]

theorem getObjectsParamsProg_eq (h : Heap) (filtersRef : Nat)
    (limit offset : Int) (fields : Option (List String)) (brief : Bool)
    (ordering : OrderingArg) :
    getObjectsParamsProg h filtersRef limit offset fields brief ordering =
      (h ++ [buildParams (hGet h filtersRef) limit offset fields brief
        ordering], h.length) := by
  unfold getObjectsParamsProg buildParams hCopy
  rcases fields with _ | fs <;> rcases ordering with _ | s | l <;>
    cases brief <;> simp only [hSetKey_append_last] <;> (repeat' split) <;>
    simp [hSetKey_append_last]

/-- C9: the caller-supplied filters dict object is left unchanged by the
params construction of get_objects — the pagination, fields, brief, and
ordering entries go into a fresh copy, which ends up holding exactly the
built parameter set while the original object keeps its entries. -/
theorem get_objects_filters_unchanged (h : Heap) (filtersRef : Nat)
    (limit offset : Int) (fields : Option (List String)) (brief : Bool)
    (ordering : OrderingArg) (hr : filtersRef < h.length) :
    hGet (getObjectsParamsProg h filtersRef limit offset fields brief
      ordering).1 filtersRef = hGet h filtersRef ∧
    hGet (getObjectsParamsProg h filtersRef limit offset fields brief
        ordering).1
      (getObjectsParamsProg h filtersRef limit offset fields brief
        ordering).2 =
      buildParams (hGet h filtersRef) limit offset fields brief ordering := by
  rw [getObjectsParamsProg_eq]
  exact ⟨hGet_append_lt _ _ _ hr, hGet_append_len _ _⟩

theorem get_objects_filters_unchanged_witness :
    hGet (getObjectsParamsProg [[("name", Val.str "router")]] 0 5 0 none
      false OrderingArg.onone).1 0 = [("name", Val.str "router")] ∧
    hGet (getObjectsParamsProg [[("name", Val.str "router")]] 0 5 0 none
        false OrderingArg.onone).1
      (getObjectsParamsProg [[("name", Val.str "router")]] 0 5 0 none
        false OrderingArg.onone).2 =
      buildParams [("name", Val.str "router")] 5 0 none false
        OrderingArg.onone :=
  get_objects_filters_unchanged [[("name", Val.str "router")]] 0 5 0 none
    false OrderingArg.onone (by decide)

/-- C10: for every suffix in the fixed lookup-suffix set, the key formed
as the separator followed by that suffix (an empty field-name part) is
accepted by filter validation: it splits into exactly two parts whose
second part is a recognised suffix, and the empty first part is never
checked. -/
theorem empty_field_suffix_accepted (s : String)
    (hs : s ∈ VALID_SUFFIXES) :
    validate_filters ["__" ++ s] = true := by
  fin_cases hs <;> decide

theorem empty_field_suffix_accepted_witness :
    validate_filters ["__" ++ "ic"] = true :=
  empty_field_suffix_accepted "ic" (by decide)
